import Mathlib

/-!
Shallow embedding of `src/apps/brain/app/main.py`, a FastAPI service with a
single route:

  from fastapi import FastAPI
  app = FastAPI(title="Voice Web Agent Brain")
  @app.get("/health")
  def health():
      return \x7b"status": "ok", "service": "brain", "version": "0.1.0"\x7d

The handler returns a dict literal; FastAPI serializes it to JSON and sends a
200 response.  Requests to unregistered paths get the framework's default 404
response, and requests to a registered path with an unregistered method get
the default 405 response.  The embedding models the handler, the route table,
the JSON serialization of flat string dicts, the request dispatch, a
state-threading interpretation of request handling (to express statelessness),
an allocation-counter heap model (to express freshness of the dict literal),
and an error-monad interpretation of the handler body (to express the absence
of an error path).
-/

namespace Brain

/-- HTTP methods relevant to dispatch. -/
inductive Method where
  | GET
  | POST
  | PUT
  | DELETE
  | PATCH
  | HEAD
  | OPTIONS
deriving DecidableEq

/-- An inbound HTTP request: method, path, headers, query parameters, body. -/
structure Request where
  method : Method
  path : String
  headers : List (String × String)
  query : List (String × String)
  body : String
deriving DecidableEq

/-- An outbound HTTP response: status code and serialized body. -/
structure Response where
  status : Nat
  body : String
deriving DecidableEq

/-- The body of `health` in main.py: it returns the dict literal
`\x7b"status": "ok", "service": "brain", "version": "0.1.0"\x7d`, modelled as an
ordered association list (Python dicts preserve insertion order). -/
def health : List (String × String) :=
  [("status", "ok"), ("service", "brain"), ("version", "0.1.0")]

/-- JSON serialization of one string-valued field. -/
def serializeField : String × String → String
  | (k, v) => "\"" ++ k ++ "\":\"" ++ v ++ "\""

/-- JSON serialization of a flat string-valued object, keys in list order
(as FastAPI's JSON encoder serializes a dict in insertion order). -/
def serializeObj (kvs : List (String × String)) : String :=
  "\x7b" ++ String.intercalate "," (kvs.map serializeField) ++ "\x7d"

/-- The route table of `app`: the decorator `@app.get("/health")` registers
exactly one route, GET on path "/health". -/
def routes : List (Method × String) :=
  [(Method.GET, "/health")]

/-- FastAPI's default body for an unregistered path. -/
def notFoundBody : String :=
  "\x7b\"detail\":\"Not Found\"\x7d"

/-- FastAPI's default body for a registered path with an unregistered method. -/
def notAllowedBody : String :=
  "\x7b\"detail\":\"Method Not Allowed\"\x7d"

/-- Request dispatch of `app`: GET "/health" runs the `health` handler and
serializes its return value with a 200 status; any other method on a
registered path gets the framework's 405 default; any unregistered path gets
the framework's 404 default. -/
def handle (req : Request) : Response :=
  if req.method = Method.GET ∧ req.path = "/health" then
    Response.mk 200 (serializeObj health)
  else if req.path ∈ routes.map Prod.snd then
    Response.mk 405 notAllowedBody
  else
    Response.mk 404 notFoundBody

/-- Handling one request as a transition on arbitrary program state: the
handler body touches no state, so serving returns the state unchanged
alongside the response. -/
def serve {σ : Type} (s : σ) (req : Request) : σ × Response :=
  (s, handle req)

/-- Handling a sequence of requests (any interleaving of concurrent calls is
some sequence of invocations), threading program state through. -/
def serveAll {σ : Type} (s : σ) : List Request → σ × List Response
  | [] => (s, [])
  | r :: rs =>
    let step := serve s r
    let rest := serveAll step.1 rs
    (rest.1, step.2 :: rest.2)

/-- The handler body interpreted in an error monad: the Python function
contains no raise and no branch, so the computation is the pure return of the
dict literal. -/
def healthRun : Except String (List (String × String)) :=
  Except.ok health

/-- A heap object: an allocation identity together with the dict fields. -/
structure HeapObj where
  oid : Nat
  fields : List (String × String)
deriving DecidableEq

/-- The dict display in the handler allocates a fresh object on every
invocation, modelled with an allocation counter as the heap state: the new
object carries the current counter as its identity. -/
def healthAlloc (nextId : Nat) : Nat × HeapObj :=
  (nextId + 1, HeapObj.mk nextId health)

/-- The canonical GET "/health" request with no headers, query, or body. -/
def healthReq : Request :=
  Request.mk Method.GET "/health" [] [] ""

/-- Any GET request to "/health" is dispatched to the `health` handler and
yields the 200 response with the serialized dict. -/
theorem handle_get_health (req : Request) (hm : req.method = Method.GET)
    (hp : req.path = "/health") :
    handle req = Response.mk 200 (serializeObj health) := by
  unfold handle
  rw [if_pos ⟨hm, hp⟩]

/-- C1: every GET "/health" request gets status 200 and a body that is
exactly the serialization of the three-field object
status="ok", service="brain", version="0.1.0", with no other fields. -/
theorem health_response_exact (req : Request) (hm : req.method = Method.GET)
    (hp : req.path = "/health") :
    (handle req).status = 200 ∧
    (handle req).body =
      serializeObj [("status", "ok"), ("service", "brain"), ("version", "0.1.0")] := by
  rw [handle_get_health req hm hp]
  exact ⟨rfl, rfl⟩

/-- Witness for C1 at the canonical health request. -/
theorem health_response_exact_witness :
    (handle healthReq).status = 200 ∧
    (handle healthReq).body =
      serializeObj [("status", "ok"), ("service", "brain"), ("version", "0.1.0")] :=
  health_response_exact healthReq rfl rfl

/-- C2: serving the same GET "/health" request twice in a row, threading any
program state through, yields byte-identical bodies, both equal to the
serialized health dict. -/
theorem health_idempotent {σ : Type} (s : σ) (r : Request)
    (hm : r.method = Method.GET) (hp : r.path = "/health") :
    ((serve s r).2).body = ((serve ((serve s r).1) r).2).body ∧
    ((serve s r).2).body = serializeObj health := by
  refine ⟨rfl, ?_⟩
  show (handle r).body = serializeObj health
  rw [handle_get_health r hm hp]

/-- Witness for C2 at the canonical health request with a concrete state. -/
theorem health_idempotent_witness :
    ((serve (0 : Nat) healthReq).2).body =
      ((serve ((serve (0 : Nat) healthReq).1) healthReq).2).body ∧
    ((serve (0 : Nat) healthReq).2).body = serializeObj health :=
  health_idempotent 0 healthReq rfl rfl

/-- C3: serving a request leaves the program state unchanged, and the
response does not depend on the state: the handler is a pure function of no
inputs. -/
theorem health_no_side_effect {σ : Type} (s t : σ) (r : Request) :
    (serve s r).1 = s ∧ (serve s r).2 = (serve t r).2 :=
  ⟨rfl, rfl⟩

/-- C4: the handler body interpreted in the error monad never produces an
error: it always returns normally with the dict whose serialization is the
response body of every GET "/health" request. -/
theorem health_never_fails (req : Request) (hm : req.method = Method.GET)
    (hp : req.path = "/health") :
    (∀ e : String, healthRun ≠ Except.error e) ∧
    ∃ v, healthRun = Except.ok v ∧
      (handle req).status = 200 ∧ (handle req).body = serializeObj v := by
  constructor
  · intro e h
    cases h
  · refine ⟨health, rfl, ?_, ?_⟩ <;> rw [handle_get_health req hm hp]

/-- Witness for C4 at the canonical health request. -/
theorem health_never_fails_witness :
    (∀ e : String, healthRun ≠ Except.error e) ∧
    ∃ v, healthRun = Except.ok v ∧
      (handle healthReq).status = 200 ∧ (handle healthReq).body = serializeObj v :=
  health_never_fails healthReq rfl rfl

/-- C5: any request that is not a GET to "/health" gets a 404 or 405
framework-default response whose body is not the health payload. -/
theorem only_health_route (req : Request)
    (h : ¬(req.method = Method.GET ∧ req.path = "/health")) :
    ((handle req).status = 404 ∨ (handle req).status = 405) ∧
    (handle req).body ≠ serializeObj health := by
  unfold handle
  rw [if_neg h]
  by_cases hc : req.path ∈ routes.map Prod.snd
  · rw [if_pos hc]
    exact ⟨Or.inr rfl, by decide⟩
  · rw [if_neg hc]
    exact ⟨Or.inl rfl, by decide⟩

/-- Witness for C5: POST to "/health" gets the method-not-allowed default. -/
theorem only_health_route_witness :
    ((handle (Request.mk Method.POST "/health" [] [] "")).status = 404 ∨
      (handle (Request.mk Method.POST "/health" [] [] "")).status = 405) ∧
    (handle (Request.mk Method.POST "/health" [] [] "")).body ≠ serializeObj health :=
  only_health_route (Request.mk Method.POST "/health" [] [] "") (by decide)

/-- C6: any sequence of GET "/health" invocations (any interleaving of
concurrent calls), threading any program state through, leaves the state
unchanged and gives every single call the same fixed 200 response. -/
theorem health_concurrent {σ : Type} (s : σ) (reqs : List Request)
    (h : ∀ r ∈ reqs, r.method = Method.GET ∧ r.path = "/health") :
    (serveAll s reqs).1 = s ∧
    ∀ resp ∈ (serveAll s reqs).2,
      resp = Response.mk 200 (serializeObj health) := by
  induction reqs generalizing s with
  | nil =>
    exact ⟨rfl, fun resp hresp => by cases hresp⟩
  | cons r rs ih =>
    have hr := h r (List.mem_cons_self r rs)
    have hrest := ih s fun x hx => h x (List.mem_cons_of_mem r hx)
    refine ⟨hrest.1, fun resp hresp => ?_⟩
    rcases List.mem_cons.mp hresp with heq | hmem
    · rw [heq]
      show handle r = Response.mk 200 (serializeObj health)
      exact handle_get_health r hr.1 hr.2
    · exact hrest.2 resp hmem

/-- Witness for C6: 100 simultaneous health calls with a concrete state. -/
theorem health_concurrent_witness :
    (serveAll (0 : Nat) (List.replicate 100 healthReq)).1 = 0 ∧
    ∀ resp ∈ (serveAll (0 : Nat) (List.replicate 100 healthReq)).2,
      resp = Response.mk 200 (serializeObj health) :=
  health_concurrent 0 (List.replicate 100 healthReq) fun r hr => by
    rw [List.eq_of_mem_replicate hr]
    exact ⟨rfl, rfl⟩

/-- C7: in the allocation model, two successive invocations of the handler
construct objects with distinct identities but equal field values, and each
invocation returns the freshly constructed dict. -/
theorem health_fresh_object (n : Nat) :
    (healthAlloc ((healthAlloc n).1)).2.oid ≠ (healthAlloc n).2.oid ∧
    (healthAlloc ((healthAlloc n).1)).2.fields = (healthAlloc n).2.fields ∧
    (healthAlloc n).2.fields = health := by
  refine ⟨?_, rfl, rfl⟩
  show n + 1 ≠ n
  exact Nat.succ_ne_self n

/-- C8: the health endpoint accepts no input: whatever headers, query
parameters, or body a GET "/health" request carries, dispatch gives the same
response as for the bare request, and no validation rejects it — the status
is always 200. -/
theorem health_no_input_required (headers query : List (String × String))
    (body : String) :
    handle (Request.mk Method.GET "/health" headers query body) =
      handle (Request.mk Method.GET "/health" [] [] "") ∧
    (handle (Request.mk Method.GET "/health" headers query body)).status = 200 := by
  constructor
  · rw [handle_get_health (Request.mk Method.GET "/health" headers query body) rfl rfl,
      handle_get_health (Request.mk Method.GET "/health" [] [] "") rfl rfl]
  · rw [handle_get_health (Request.mk Method.GET "/health" headers query body) rfl rfl]

/-- C9: noninterference with respect to request content: any two GET
"/health" requests, whatever their headers, query parameters, or bodies,
produce equal responses. -/
theorem health_noninterference (r1 r2 : Request)
    (h1 : r1.method = Method.GET) (p1 : r1.path = "/health")
    (h2 : r2.method = Method.GET) (p2 : r2.path = "/health") :
    handle r1 = handle r2 := by
  rw [handle_get_health r1 h1 p1, handle_get_health r2 h2 p2]

/-- Witness for C9: a request with a header and a body versus a request with
a query parameter give the same response. -/
theorem health_noninterference_witness :
    handle (Request.mk Method.GET "/health" [("x-user", "alice")] [] "secret") =
      handle (Request.mk Method.GET "/health" [] [("q", "1")] "") :=
  health_noninterference
    (Request.mk Method.GET "/health" [("x-user", "alice")] [] "secret")
    (Request.mk Method.GET "/health" [] [("q", "1")] "") rfl rfl rfl rfl

/-- C10: the dict returned by the handler has exactly the three keys
"status", "service", "version" in that insertion order. -/
theorem health_key_order :
    health.map Prod.fst = ["status", "service", "version"] ∧
    health.length = 3 :=
  ⟨rfl, rfl⟩

end Brain
